import Mathlib

/-!
Shallow embedding of `mtOpenGL.go` (package mtOpenGL), a thin helper layer
over OpenGL 4.5 core.  Every exported function of the source file is
translated into a pure Lean function over an explicit driver state:
the state records a fresh-handle counter and the trace of driver calls
issued so far, and an `Env` oracle supplies the results the driver would
return (file contents, compile status, link status, info logs).  Handles
are `Nat`, GL enums are `Nat` constants with their real values, and the
`int32` quantities of the source (sizes, counts) are `Int`.
-/

/-! ## GL enumeration constants (values from the go-gl v4.5-core bindings) -/

def glFALSE : Nat := 0
def glTRUE : Nat := 1
def glVERTEX_SHADER : Nat := 0x8B31
def glFRAGMENT_SHADER : Nat := 0x8B30
def glGEOMETRY_SHADER : Nat := 0x8DD9
def glTESS_CONTROL_SHADER : Nat := 0x8E88
def glTESS_EVALUATION_SHADER : Nat := 0x8E87
def glCOMPUTE_SHADER : Nat := 0x91B9
def glCOMPILE_STATUS : Nat := 0x8B81
def glLINK_STATUS : Nat := 0x8B82
def glINFO_LOG_LENGTH : Nat := 0x8B84
def glTEXTURE_2D : Nat := 0x0DE1
def glTEXTURE_2D_MULTISAMPLE : Nat := 0x9100
def glTEXTURE_WRAP_S : Nat := 0x2802
def glTEXTURE_WRAP_T : Nat := 0x2803
def glTEXTURE_MIN_FILTER : Nat := 0x2801
def glTEXTURE_MAG_FILTER : Nat := 0x2800
def glCLAMP_TO_EDGE : Nat := 0x812F
def glREPEAT : Nat := 0x2901
def glNEAREST : Nat := 0x2600
def glRGBA8 : Nat := 0x8058
def glRGBA : Nat := 0x1908
def glUNSIGNED_BYTE : Nat := 0x1401
def glFLOAT : Nat := 0x1406
def glRGBA32F : Nat := 0x8814
def glRG32F : Nat := 0x8230
def glRG : Nat := 0x8227
def glDEPTH_COMPONENT32 : Nat := 0x81A7
def glDEPTH_COMPONENT : Nat := 0x1902
def glFRAMEBUFFER : Nat := 0x8D40
def glCOLOR_ATTACHMENT0 : Nat := 0x8CE0
def glDEPTH_ATTACHMENT : Nat := 0x8D00
def glARRAY_BUFFER : Nat := 0x8892
def glELEMENT_ARRAY_BUFFER : Nat := 0x8893
def glSTATIC_DRAW : Nat := 0x88E4

/-! ## Driver calls and driver state -/

/-- One call into the GL driver, as issued by the source functions.
`callCreateTexture` additionally marks an invocation of the repository's
own `CreateTexture` factory, recording the arguments it was passed. -/
inductive GLCall where
  | createShader (shaderType shader : Nat)
  | shaderSource (shader : Nat)
  | compileShaderCall (shader : Nat)
  | getShaderiv (shader pname : Nat)
  | getShaderInfoLog (shader : Nat)
  | createProgram (program : Nat)
  | attachShader (program shader : Nat)
  | linkProgram (program : Nat)
  | getProgramiv (program pname : Nat)
  | getProgramInfoLog (program : Nat)
  | deleteShader (shader : Nat)
  | genTextures (tex : Nat)
  | bindTexture (target tex : Nat)
  | texParameteri (target pname : Nat) (value : Nat)
  | texStorage2DMultisample (target : Nat) (samples : Int) (internalFormat : Nat) (width height : Int)
  | texStorage2D (target : Nat) (levels : Int) (internalFormat : Nat) (width height : Int)
  | texImage2D (target : Nat) (level : Int) (internalFormat : Nat) (width height : Int) (format ttype : Nat)
  | genFramebuffers (fbo : Nat)
  | bindFramebuffer (target fbo : Nat)
  | framebufferTexture2D (target attachment texType tex : Nat)
  | genBuffers (buf : Nat)
  | bindBuffer (target buf : Nat)
  | bufferData (target : Nat) (size : Int) (usage : Nat)
  | genVertexArrays (va : Nat)
  | bindVertexArray (va : Nat)
  | enableVertexAttribArray (index : Nat)
  | vertexAttribPointer (index : Nat) (size : Int) (ttype : Nat) (normalized : Bool) (stride : Int)
  | deleteBuffers (buf : Nat)
  | deleteVertexArrays (va : Nat)
  | callCreateTexture (width height : Int) (internalFormat format internalType : Nat) (multisampling : Bool) (samples mipmapLevels : Int)
  deriving DecidableEq, Repr

/-- Driver-side state: a counter handing out fresh (hence nonzero, once
`0 < next`) object handles and the trace of calls issued so far. -/
structure GLState where
  next : Nat
  trace : List GLCall
  deriving DecidableEq, Repr

def GLState.emit (s : GLState) (cs : List GLCall) : GLState :=
  { s with trace := s.trace ++ cs }

def GLState.alloc (s : GLState) : Nat × GLState :=
  (s.next, { s with next := s.next + 1 })

def initState (next : Nat) : GLState :=
  { next := next, trace := [] }

/-- Oracle for everything the environment decides: file contents
(`none` models an `os.Open` error), per-source compile status and shader
info logs, and the link status and program info log of the program a call
links. -/
structure Env where
  files : String → Option String
  compileOk : String → Nat → Bool
  shaderLog : String → Nat → String
  linkOk : Bool
  programLog : String

/-! ## Shader compilation and file reading (source lines 31-66) -/

/-- Embedding of `compileShader`: creates a shader object, uploads the
source, compiles, and checks `COMPILE_STATUS`; on failure reads the info
log and returns handle `0` with a formatted error, on success returns the
shader handle and no error.  The Go pair `(uint32, error)` is
`Nat × Option String`. -/
def compileShader (env : Env) (s : GLState) (source : String) (shaderType : Nat) :
    (Nat × Option String) × GLState :=
  let (shader, s) := s.alloc
  let s := s.emit [.createShader shaderType shader, .shaderSource shader, .compileShaderCall shader]
  let status := if env.compileOk source shaderType then glTRUE else glFALSE
  let s := s.emit [.getShaderiv shader glCOMPILE_STATUS]
  if status = glFALSE then
    let s := s.emit [.getShaderiv shader glINFO_LOG_LENGTH, .getShaderInfoLog shader]
    let log := env.shaderLog source shaderType
    ((0, some ("failed to compile " ++ source ++ ": " ++ log)), s)
  else
    ((shader, none), s)

/-- Embedding of `readFile`: file contents from the oracle, or an error. -/
def readFile (env : Env) (name : String) : Except String String :=
  match env.files name with
  | some content => .ok content
  | none => .error ("open " ++ name ++ ": no such file or directory")

/-! ## Program construction (source lines 70-194) -/

/-- Embedding of the link-and-check tail shared by `NewProgram` and
`NewComputeProgram` (source lines 137-149 and 177-189): link the program,
check `LINK_STATUS`, and on failure read the log and return `0` with an
error. -/
def linkAndCheck (env : Env) (s : GLState) (program : Nat) :
    Option ((Nat × Option String) × GLState) × GLState :=
  let s := s.emit [.linkProgram program]
  let status := if env.linkOk then glTRUE else glFALSE
  let s := s.emit [.getProgramiv program glLINK_STATUS]
  if status = glFALSE then
    let s := s.emit [.getProgramiv program glINFO_LOG_LENGTH, .getProgramInfoLog program]
    (some ((0, some ("failed to link program: " ++ env.programLog)), s), s)
  else
    (none, s)

/-- The read-then-compile step the source repeats for every stage
(e.g. lines 74-82): read the named file, compile its contents for the
given stage, and propagate either error. -/
def compileStage (env : Env) (s : GLState) (name : String) (shaderType : Nat) :
    (Except String Nat) × GLState :=
  match readFile env name with
  | .error err => (.error err, s)
  | .ok src =>
    match compileShader env s src shaderType with
    | ((_, some err), s) => (.error err, s)
    | ((shader, none), s) => (.ok shader, s)

/-- Embedding of the tail of `NewProgram` (source lines 126-161): create
the program, attach the vertex stage, the tessellation stages when in
use, the fragment stage, and the geometry stage when in use; link and
check; on success delete the stage shaders and return the program. -/
def finishProgram (env : Env) (s : GLState) (useTessellationShader useGeometryShader : Bool)
    (vertexShader tessControlShader tessEvalShader fragmentShader geometryShader : Nat) :
    (Nat × Option String) × GLState :=
  let (program, s) := s.alloc
  let s := s.emit [.createProgram program]
  let s := s.emit [.attachShader program vertexShader]
  let s := if useTessellationShader then
      s.emit [.attachShader program tessControlShader, .attachShader program tessEvalShader]
    else s
  let s := s.emit [.attachShader program fragmentShader]
  let s := if useGeometryShader then s.emit [.attachShader program geometryShader] else s
  match linkAndCheck env s program with
  | (some failure, _) => failure
  | (none, s) =>
  let s := s.emit [.deleteShader vertexShader]
  let s := if useTessellationShader then
      s.emit [.deleteShader tessControlShader, .deleteShader tessEvalShader]
    else s
  let s := s.emit [.deleteShader fragmentShader]
  let s := if useGeometryShader then s.emit [.deleteShader geometryShader] else s
  ((program, none), s)

/-- Embedding of `NewProgram` (source lines 70-162).  Reads and compiles
the vertex stage, the optional tessellation control/evaluation stages
(only when both names are non-empty), the fragment stage, and the optional
geometry stage (only when its name is non-empty); creates a program,
attaches the compiled stages, links, checks link status, and on success
deletes the stage shaders and returns the program handle. -/
def NewProgram (env : Env) (s : GLState)
    (vertexShaderName geometryShaderName tessControlShaderName tessEvalShaderName fragmentShaderName : String) :
    (Nat × Option String) × GLState :=
  let useTessellationShader := (tessControlShaderName != "") && (tessEvalShaderName != "")
  let useGeometryShader := geometryShaderName != ""
  match compileStage env s vertexShaderName glVERTEX_SHADER with
  | (.error err, s) => ((0, some err), s)
  | (.ok vertexShader, s) =>
  let tessStep : (Except String (Nat × Nat)) × GLState :=
    if useTessellationShader then
      match compileStage env s tessControlShaderName glTESS_CONTROL_SHADER with
      | (.error err, s) => (.error err, s)
      | (.ok tessControlShader, s) =>
      match compileStage env s tessEvalShaderName glTESS_EVALUATION_SHADER with
      | (.error err, s) => (.error err, s)
      | (.ok tessEvalShader, s) => (.ok (tessControlShader, tessEvalShader), s)
    else (.ok (0, 0), s)
  match tessStep with
  | (.error err, s) => ((0, some err), s)
  | (.ok (tessControlShader, tessEvalShader), s) =>
  match compileStage env s fragmentShaderName glFRAGMENT_SHADER with
  | (.error err, s) => ((0, some err), s)
  | (.ok fragmentShader, s) =>
  let geomStep : (Except String Nat) × GLState :=
    if useGeometryShader then
      match compileStage env s geometryShaderName glGEOMETRY_SHADER with
      | (.error err, s) => (.error err, s)
      | (.ok geometryShader, s) => (.ok geometryShader, s)
    else (.ok 0, s)
  match geomStep with
  | (.error err, s) => ((0, some err), s)
  | (.ok geometryShader, s) =>
  finishProgram env s useTessellationShader useGeometryShader
    vertexShader tessControlShader tessEvalShader fragmentShader geometryShader

/-- Embedding of `NewComputeProgram` (source lines 164-194): reads and
compiles the single compute stage, attaches it, links, checks link status,
and on success deletes the stage shader and returns the program handle. -/
def NewComputeProgram (env : Env) (s : GLState) (computeShaderName : String) :
    (Nat × Option String) × GLState :=
  match compileStage env s computeShaderName glCOMPUTE_SHADER with
  | (.error err, s) => ((0, some err), s)
  | (.ok computeShader, s) =>
  let (program, s) := s.alloc
  let s := s.emit [.createProgram program]
  let s := s.emit [.attachShader program computeShader]
  match linkAndCheck env s program with
  | (some failure, _) => failure
  | (none, s) =>
  let s := s.emit [.deleteShader computeShader]
  ((program, none), s)

/-! ## Texture and framebuffer factory (source lines 196-311) -/

/-- Embedding of `CreateTexture` (source lines 196-218).  Note that the
source binds the new texture to `texType` (which is
`TEXTURE_2D_MULTISAMPLE` when multisampling) but issues all four
`TexParameteri` calls on target `TEXTURE_2D`, exactly as written.  A
`callCreateTexture` marker records the invocation and its arguments. -/
def CreateTexture (s : GLState) (width height : Int) (internalFormat format internalType : Nat)
    (multisampling : Bool) (samples mipmapLevels : Int) : Nat × GLState :=
  let s := s.emit [.callCreateTexture width height internalFormat format internalType multisampling samples mipmapLevels]
  let texType := if multisampling then glTEXTURE_2D_MULTISAMPLE else glTEXTURE_2D
  let (tex, s) := s.alloc
  let s := s.emit [.genTextures tex, .bindTexture texType tex]
  let s := s.emit [.texParameteri glTEXTURE_2D glTEXTURE_WRAP_S glCLAMP_TO_EDGE,
                   .texParameteri glTEXTURE_2D glTEXTURE_WRAP_T glCLAMP_TO_EDGE,
                   .texParameteri glTEXTURE_2D glTEXTURE_MIN_FILTER glNEAREST,
                   .texParameteri glTEXTURE_2D glTEXTURE_MAG_FILTER glNEAREST]
  let s := if multisampling then
      s.emit [.texStorage2DMultisample glTEXTURE_2D_MULTISAMPLE samples internalFormat width height]
    else
      s.emit [.texStorage2D glTEXTURE_2D mipmapLevels internalFormat width height]
  (tex, s)

/-- Embedding of `CreateFboWithExistingTextures` (source lines 251-267).
Go nil pointers become `none`; a `some` value is the pointed-to handle. -/
def CreateFboWithExistingTextures (s : GLState) (colorTex depthTex : Option Nat) (texType : Nat) :
    Nat × GLState :=
  let (fbo, s) := s.alloc
  let s := s.emit [.genFramebuffers fbo, .bindFramebuffer glFRAMEBUFFER fbo]
  let s := match colorTex with
    | some tex => s.emit [.framebufferTexture2D glFRAMEBUFFER glCOLOR_ATTACHMENT0 texType tex]
    | none => s
  let s := match depthTex with
    | some tex => s.emit [.framebufferTexture2D glFRAMEBUFFER glDEPTH_ATTACHMENT texType tex]
    | none => s
  let s := s.emit [.bindFramebuffer glFRAMEBUFFER 0]
  (fbo, s)

/-- Embedding of `CreateLightFbo` (source lines 270-285).  The `Option Nat`
arguments model the Go pointers (`none` = nil); the returned options are
the values written through them. -/
def CreateLightFbo (s : GLState) (colorTex depthTex : Option Nat) (width height : Int)
    (multisampling : Bool) (samples : Int) : (Nat × Option Nat × Option Nat) × GLState :=
  let (colorTex, s) := match colorTex with
    | some _ =>
      let (tex, s) := CreateTexture s width height glRG32F glRG glFLOAT multisampling samples 1
      (some tex, s)
    | none => (none, s)
  let (depthTex, s) := match depthTex with
    | some _ =>
      let (tex, s) := CreateTexture s width height glDEPTH_COMPONENT32 glDEPTH_COMPONENT glFLOAT multisampling samples 1
      (some tex, s)
    | none => (none, s)
  let texType := if multisampling then glTEXTURE_2D_MULTISAMPLE else glTEXTURE_2D
  let (fbo, s) := CreateFboWithExistingTextures s colorTex depthTex texType
  ((fbo, colorTex, depthTex), s)

/-- Embedding of `CreateFbo` (source lines 287-311): standard preset with
RGBA8/UNSIGNED_BYTE color (RGBA32F/FLOAT when floating point) and a
DEPTH_COMPONENT32/FLOAT depth texture, each created only when the
corresponding pointer is non-nil. -/
def CreateFbo (s : GLState) (colorTex depthTex : Option Nat) (width height : Int)
    (multisampling : Bool) (samples : Int) (isFloatingPoint : Bool) (mipmapLevels : Int) :
    (Nat × Option Nat × Option Nat) × GLState :=
  let intFormat := if isFloatingPoint then glRGBA32F else glRGBA8
  let format := glRGBA
  let ttype := if isFloatingPoint then glFLOAT else glUNSIGNED_BYTE
  let (colorTex, s) := match colorTex with
    | some _ =>
      let (tex, s) := CreateTexture s width height intFormat format ttype multisampling samples mipmapLevels
      (some tex, s)
    | none => (none, s)
  let (depthTex, s) := match depthTex with
    | some _ =>
      let (tex, s) := CreateTexture s width height glDEPTH_COMPONENT32 glDEPTH_COMPONENT glFLOAT multisampling samples 1
      (some tex, s)
    | none => (none, s)
  let texType := if multisampling then glTEXTURE_2D_MULTISAMPLE else glTEXTURE_2D
  let (fbo, s) := CreateFboWithExistingTextures s colorTex depthTex texType
  ((fbo, colorTex, depthTex), s)

/-! ## Image-backed texture loader (source lines 220-249) -/

/-- A decoded image as the source uses it: only `Bounds().Max` of the
embedded `image.Image` is consumed. -/
structure GoImage where
  maxX : Int
  maxY : Int
  deriving DecidableEq, Repr

/-- The record returned by `LoadImage`, of which the source reads the
field `Img`. -/
structure ImageRecord where
  Img : GoImage
  deriving DecidableEq, Repr

/-- Modelled from the spec: `LoadImage`, the image-loading collaborator
called by `CreateImageTexture`, is not part of this source file; per the
spec it decodes an image file and can fail.  The oracle supplies the
record and the error it would return. -/
structure ImgEnv where
  loadImage : String → ImageRecord × Option String

/-- Embedding of the `ImageTexture` struct; the `mgl32.Vec2` size is a
pair of the two dimensions (their numeric values, which the source takes
from the image bounds). -/
structure ImageTexture where
  TextureHandle : Nat
  TextureSizeX : Int
  TextureSizeY : Int
  deriving DecidableEq, Repr

/-- Embedding of `CreateImageTexture` (source lines 220-249): loads the
image, prints (a no-op here) when the load failed, and unconditionally
continues to create and fill a texture from the loaded record. -/
def CreateImageTexture (env : ImgEnv) (s : GLState) (imageName : String) (isRepeating : Bool) :
    ImageTexture × GLState :=
  let (img, _err) := env.loadImage imageName
  let textureWrap := if isRepeating then glREPEAT else glCLAMP_TO_EDGE
  let (tex, s) := s.alloc
  let s := s.emit [.genTextures tex, .bindTexture glTEXTURE_2D tex]
  let s := s.emit [.texParameteri glTEXTURE_2D glTEXTURE_WRAP_S textureWrap,
                   .texParameteri glTEXTURE_2D glTEXTURE_WRAP_T textureWrap,
                   .texParameteri glTEXTURE_2D glTEXTURE_MIN_FILTER glNEAREST,
                   .texParameteri glTEXTURE_2D glTEXTURE_MAG_FILTER glNEAREST]
  let s := s.emit [.texImage2D glTEXTURE_2D 0 glRGBA8 img.Img.maxX img.Img.maxY glRGBA glUNSIGNED_BYTE]
  ({ TextureHandle := tex, TextureSizeX := img.Img.maxX, TextureSizeY := img.Img.maxY }, s)

/-! ## Vertex/index buffer packer (source lines 17-24, 313-385) -/

/-- Embedding of the `MeshBuffer` struct. -/
structure MeshBuffer where
  ArrayBuffer : Nat
  VertexBuffer : Nat
  VertexCount : Int
  IndexBuffer : Nat
  IndexCount : Int
  deriving DecidableEq, Repr

/-- A 2-component float vector; the component values are never inspected
by the source (only the element count and byte size are), so they are
modelled as plain numeric data. -/
structure Vec2 where
  x : Int
  y : Int
  deriving DecidableEq, Repr

/-- `unsafe.Sizeof` of an `mgl32.Vec2` (two 4-byte floats). -/
def vec2Size : Int := 8

/-- `unsafe.Sizeof` of a `uint32`. -/
def uint32Size : Int := 4

/-- Embedding of `GenerateBufferFromTriangles2D` (source lines 313-335). -/
def GenerateBufferFromTriangles2D (s : GLState) (bufferObject : MeshBuffer) (points : List Vec2) :
    MeshBuffer × GLState :=
  if points.length < 3 then (bufferObject, s)
  else
    let stride := vec2Size
    let (ab, s) := s.alloc
    let s := s.emit [.genBuffers ab, .bindBuffer glARRAY_BUFFER ab,
                     .bufferData glARRAY_BUFFER (stride * points.length) glSTATIC_DRAW]
    let bufferObject := { bufferObject with ArrayBuffer := ab }
    let (vb, s) := s.alloc
    let s := s.emit [.genVertexArrays vb, .bindVertexArray vb]
    let s := s.emit [.enableVertexAttribArray 0,
                     .vertexAttribPointer 0 2 glFLOAT false stride]
    let bufferObject := { bufferObject with VertexBuffer := vb, VertexCount := (points.length : Int) }
    let s := s.emit [.bindBuffer glARRAY_BUFFER 0]
    (bufferObject, s)

/-- Embedding of `GenerateBufferFromLines2D` (source lines 337-368). -/
def GenerateBufferFromLines2D (s : GLState) (bufferObject : MeshBuffer) (points : List Vec2)
    (indices : List Nat) : MeshBuffer × GLState :=
  if points.length < 2 || indices.length < 2 then (bufferObject, s)
  else
    let stride := vec2Size
    let uiStride := uint32Size
    let (ab, s) := s.alloc
    let s := s.emit [.genBuffers ab, .bindBuffer glARRAY_BUFFER ab,
                     .bufferData glARRAY_BUFFER (stride * points.length) glSTATIC_DRAW]
    let bufferObject := { bufferObject with ArrayBuffer := ab }
    let (vb, s) := s.alloc
    let s := s.emit [.genVertexArrays vb, .bindVertexArray vb]
    let s := s.emit [.enableVertexAttribArray 0,
                     .vertexAttribPointer 0 2 glFLOAT false stride]
    let bufferObject := { bufferObject with VertexBuffer := vb, VertexCount := (points.length : Int) }
    let s := s.emit [.bindBuffer glARRAY_BUFFER 0]
    let (ib, s) := s.alloc
    let s := s.emit [.genBuffers ib, .bindBuffer glELEMENT_ARRAY_BUFFER ib,
                     .bufferData glELEMENT_ARRAY_BUFFER (uiStride * indices.length) glSTATIC_DRAW,
                     .bindBuffer glELEMENT_ARRAY_BUFFER 0]
    let bufferObject := { bufferObject with IndexBuffer := ib, IndexCount := (indices.length : Int) }
    (bufferObject, s)

/-- Embedding of `FreeGLBuffer` (source lines 370-385): deletes the array
buffer and vertex array when `VertexCount > 0`, and the index buffer when
`IndexCount > 0`; note the second branch zeroes `VertexCount`, never
`IndexCount`. -/
def FreeGLBuffer (s : GLState) (buffer : MeshBuffer) : MeshBuffer × GLState :=
  let (buffer, s) :=
    if buffer.VertexCount > 0 then
      let s := s.emit [.deleteBuffers buffer.ArrayBuffer, .deleteVertexArrays buffer.VertexBuffer]
      ({ buffer with VertexCount := 0, ArrayBuffer := 0, VertexBuffer := 0 }, s)
    else (buffer, s)
  if buffer.IndexCount > 0 then
    let s := s.emit [.deleteBuffers buffer.IndexBuffer]
    ({ buffer with VertexCount := 0, IndexBuffer := 0 }, s)
  else (buffer, s)

/-! ## Trace analyzers -/

/-- Shaders attached to program `p` in a trace, in order. -/
def attachedShaders (p : Nat) : List GLCall → List Nat
  | [] => []
  | .attachShader q sh :: t => if q = p then sh :: attachedShaders p t else attachedShaders p t
  | _ :: t => attachedShaders p t

/-- Shaders deleted in a trace, in order. -/
def deletedShaders : List GLCall → List Nat
  | [] => []
  | .deleteShader sh :: t => sh :: deletedShaders t
  | _ :: t => deletedShaders t

/-- Program objects created in a trace, in order. -/
def createdPrograms : List GLCall → List Nat
  | [] => []
  | .createProgram p :: t => p :: createdPrograms t
  | _ :: t => createdPrograms t

/-- Programs linked in a trace, in order. -/
def linkedPrograms : List GLCall → List Nat
  | [] => []
  | .linkProgram p :: t => p :: linkedPrograms t
  | _ :: t => linkedPrograms t

theorem attachedShaders_append (p : Nat) (t1 t2 : List GLCall) :
    attachedShaders p (t1 ++ t2) = attachedShaders p t1 ++ attachedShaders p t2 := by
  induction t1 with
  | nil => rfl
  | cons c t ih =>
      cases c <;> simp [attachedShaders, ih]
      split <;> simp [ih]

theorem deletedShaders_append (t1 t2 : List GLCall) :
    deletedShaders (t1 ++ t2) = deletedShaders t1 ++ deletedShaders t2 := by
  induction t1 with
  | nil => rfl
  | cons c t ih => cases c <;> simp [deletedShaders, ih]

theorem createdPrograms_append (t1 t2 : List GLCall) :
    createdPrograms (t1 ++ t2) = createdPrograms t1 ++ createdPrograms t2 := by
  induction t1 with
  | nil => rfl
  | cons c t ih => cases c <;> simp [createdPrograms, ih]

theorem linkedPrograms_append (t1 t2 : List GLCall) :
    linkedPrograms (t1 ++ t2) = linkedPrograms t1 ++ linkedPrograms t2 := by
  induction t1 with
  | nil => rfl
  | cons c t ih => cases c <;> simp [linkedPrograms, ih]

theorem mem_createdPrograms_of_mem {p : Nat} {t : List GLCall}
    (h : GLCall.createProgram p ∈ t) : p ∈ createdPrograms t := by
  induction t with
  | nil => cases h
  | cons c t ih =>
      rcases List.mem_cons.mp h with heq | hmem
      · rw [← heq]; simp [createdPrograms]
      · cases c <;> simp [createdPrograms, ih hmem]

theorem mem_linkedPrograms_of_mem {p : Nat} {t : List GLCall}
    (h : GLCall.linkProgram p ∈ t) : p ∈ linkedPrograms t := by
  induction t with
  | nil => cases h
  | cons c t ih =>
      rcases List.mem_cons.mp h with heq | hmem
      · rw [← heq]; simp [linkedPrograms]
      · cases c <;> simp [linkedPrograms, ih hmem]

/-- A `compileStage` call only appends stage-compilation calls: nothing it
emits attaches, deletes, creates or links a program, and the handle
counter does not decrease. -/
theorem compileStage_trace (env : Env) (s : GLState) (name : String) (shaderType : Nat) :
    ∃ d, ((compileStage env s name shaderType).2).trace = s.trace ++ d
      ∧ (∀ p, attachedShaders p d = [])
      ∧ deletedShaders d = []
      ∧ createdPrograms d = []
      ∧ linkedPrograms d = []
      ∧ s.next ≤ ((compileStage env s name shaderType).2).next := by
  unfold compileStage readFile compileShader GLState.alloc GLState.emit
  cases h : env.files name with
  | none =>
      exact ⟨[], by simp, fun p => rfl, rfl, rfl, rfl, Nat.le_refl _⟩
  | some src =>
      by_cases hc : env.compileOk src shaderType
      · refine ⟨[.createShader shaderType s.next, .shaderSource s.next, .compileShaderCall s.next,
          .getShaderiv s.next glCOMPILE_STATUS], ?_, ?_, ?_, ?_, ?_, ?_⟩ <;>
          simp [hc, glTRUE, glFALSE, attachedShaders, deletedShaders, createdPrograms, linkedPrograms]
      · refine ⟨[.createShader shaderType s.next, .shaderSource s.next, .compileShaderCall s.next,
          .getShaderiv s.next glCOMPILE_STATUS, .getShaderiv s.next glINFO_LOG_LENGTH,
          .getShaderInfoLog s.next], ?_, ?_, ?_, ?_, ?_, ?_⟩ <;>
          simp [hc, glTRUE, glFALSE, attachedShaders, deletedShaders, createdPrograms, linkedPrograms]

/-! ## C4: compileShader status contract -/

/-- C4: `compileShader` returns a non-nil error iff the driver reports
compile status FALSE; on failure it returns handle `0` and an error whose
message contains the shader's info log; on success it returns the created
shader handle (the one `CreateShader` produced) with a nil error. -/
theorem compileShader_status_contract (env : Env) (s : GLState) (source : String) (shaderType : Nat) :
    ((compileShader env s source shaderType).1.2 ≠ none ↔ env.compileOk source shaderType = false)
    ∧ (env.compileOk source shaderType = false →
        (compileShader env s source shaderType).1.1 = 0
        ∧ ∃ msg, (compileShader env s source shaderType).1.2 = some msg
            ∧ (env.shaderLog source shaderType).data <:+: msg.data)
    ∧ (env.compileOk source shaderType = true →
        (compileShader env s source shaderType).1.1 = s.next
        ∧ (compileShader env s source shaderType).1.2 = none
        ∧ GLCall.createShader shaderType s.next ∈ ((compileShader env s source shaderType).2).trace) := by
  by_cases hc : env.compileOk source shaderType
  · refine ⟨?_, ?_, ?_⟩ <;>
      simp [compileShader, GLState.alloc, GLState.emit, hc, glTRUE, glFALSE]
  · simp only [Bool.not_eq_true] at hc
    refine ⟨?_, ?_, ?_⟩
    · simp [compileShader, GLState.alloc, GLState.emit, hc, glTRUE, glFALSE]
    · intro _
      refine ⟨?_, "failed to compile " ++ source ++ ": " ++ env.shaderLog source shaderType, ?_, ?_⟩
      · simp [compileShader, GLState.alloc, GLState.emit, hc, glTRUE, glFALSE]
      · simp [compileShader, GLState.alloc, GLState.emit, hc, glTRUE, glFALSE]
      · exact List.IsSuffix.isInfix
          ⟨("failed to compile ").data ++ source.data ++ (": ").data, by
            simp [String.data_append]⟩
    · intro habs
      rw [hc] at habs
      exact absurd habs (by simp)

/-- A concrete oracle on which every compile fails with log`syntax error`. -/
def envNoCompile : Env :=
  { files := fun _ => some "bad source"
    compileOk := fun _ _ => false
    shaderLog := fun _ _ => "syntax error"
    linkOk := true
    programLog := "" }

/-- Witness for C4: on a concrete oracle whose compiler rejects the
source, the failure branch of the contract is exercised. -/
theorem compileShader_status_contract_witness :
    (compileShader envNoCompile (initState 1) "bad source" glVERTEX_SHADER).1.1 = 0
    ∧ ∃ msg, (compileShader envNoCompile (initState 1) "bad source" glVERTEX_SHADER).1.2 = some msg
        ∧ (envNoCompile.shaderLog "bad source" glVERTEX_SHADER).data <:+: msg.data :=
  (compileShader_status_contract envNoCompile (initState 1) "bad source" glVERTEX_SHADER).2.1 rfl

/-- The stage objects `NewProgram` attaches, in attach order: vertex,
the two tessellation stages when in use, fragment, and the geometry stage
when in use. -/
def stageList (useTess useGeom : Bool) (vs tcs tes fs gs : Nat) : List Nat :=
  [vs] ++ (if useTess then [tcs, tes] else []) ++ [fs] ++ (if useGeom then [gs] else [])

theorem stageList_length (useTess useGeom : Bool) (vs tcs tes fs gs : Nat) :
    (stageList useTess useGeom vs tcs tes fs gs).length =
      2 + (if useTess then 2 else 0) + (if useGeom then 1 else 0) := by
  cases useTess <;> cases useGeom <;> simp [stageList]

/-- Behavior of the program-construction tail: starting from a state whose
trace has no program-related calls, it creates and links exactly one
program (the fresh handle `s.next`), attaches exactly the stage list to
it, and deletes exactly the stage list when linking succeeds and nothing
when linking fails; linking failure yields handle `0` and the link error. -/
theorem finishProgram_shape (env : Env) (s : GLState) (useTess useGeom : Bool)
    (vs tcs tes fs gs : Nat)
    (hcp : createdPrograms s.trace = [])
    (hlp : linkedPrograms s.trace = [])
    (hdd : deletedShaders s.trace = [])
    (hat : ∀ p, attachedShaders p s.trace = []) :
    (finishProgram env s useTess useGeom vs tcs tes fs gs).1 =
        (if env.linkOk then ((s.next : Nat), (none : Option String))
         else (0, some ("failed to link program: " ++ env.programLog)))
      ∧ createdPrograms ((finishProgram env s useTess useGeom vs tcs tes fs gs).2).trace = [s.next]
      ∧ linkedPrograms ((finishProgram env s useTess useGeom vs tcs tes fs gs).2).trace = [s.next]
      ∧ attachedShaders s.next ((finishProgram env s useTess useGeom vs tcs tes fs gs).2).trace
          = stageList useTess useGeom vs tcs tes fs gs
      ∧ deletedShaders ((finishProgram env s useTess useGeom vs tcs tes fs gs).2).trace
          = (if env.linkOk then stageList useTess useGeom vs tcs tes fs gs else []) := by
  cases hl : env.linkOk <;> cases useTess <;> cases useGeom <;>
    (refine ⟨?_, ?_, ?_, ?_, ?_⟩ <;>
      simp [finishProgram, linkAndCheck, GLState.alloc, GLState.emit, stageList, hl,
        glTRUE, glFALSE, createdPrograms_append, linkedPrograms_append, deletedShaders_append,
        attachedShaders_append, hcp, hlp, hdd, hat, createdPrograms, linkedPrograms,
        deletedShaders, attachedShaders])

/-- Full shape of a `NewProgram` run started on a fresh trace: either it
returns an error before any program object exists, or it creates exactly
one program object (a fresh handle), links it, attaches exactly the stage
list to it, and deletes exactly the stage list when linking succeeds and
nothing when linking fails. -/
theorem newProgram_shape (env : Env) (next : Nat) (v g tc te f : String) :
    (∃ err, (NewProgram env (initState next) v g tc te f).1 = (0, some err)
      ∧ createdPrograms ((NewProgram env (initState next) v g tc te f).2).trace = []
      ∧ linkedPrograms ((NewProgram env (initState next) v g tc te f).2).trace = []
      ∧ deletedShaders ((NewProgram env (initState next) v g tc te f).2).trace = []
      ∧ (∀ p, attachedShaders p ((NewProgram env (initState next) v g tc te f).2).trace = []))
    ∨ (∃ P vs tcs tes fs gs, next ≤ P
      ∧ (NewProgram env (initState next) v g tc te f).1 =
          (if env.linkOk then ((P : Nat), (none : Option String))
           else (0, some ("failed to link program: " ++ env.programLog)))
      ∧ createdPrograms ((NewProgram env (initState next) v g tc te f).2).trace = [P]
      ∧ linkedPrograms ((NewProgram env (initState next) v g tc te f).2).trace = [P]
      ∧ attachedShaders P ((NewProgram env (initState next) v g tc te f).2).trace
          = stageList ((tc != "") && (te != "")) (g != "") vs tcs tes fs gs
      ∧ deletedShaders ((NewProgram env (initState next) v g tc te f).2).trace
          = (if env.linkOk then stageList ((tc != "") && (te != "")) (g != "") vs tcs tes fs gs else [])) := by
  obtain ⟨d1, hd1, ha1, hdd1, hcp1, hlp1, hn1⟩ := compileStage_trace env (initState next) v glVERTEX_SHADER
  rcases h1 : compileStage env (initState next) v glVERTEX_SHADER with ⟨res1, s1⟩
  simp only [h1] at hd1 hn1
  simp only [initState] at hd1 hn1
  cases res1 with
  | error err =>
      left
      have hN : NewProgram env (initState next) v g tc te f = ((0, some err), s1) := by
        simp [NewProgram, h1]
      refine ⟨err, ?_, ?_, ?_, ?_, ?_⟩ <;>
        simp [hN, hd1, createdPrograms_append, linkedPrograms_append, deletedShaders_append,
          attachedShaders_append, hcp1, hlp1, hdd1, ha1]
  | ok vshader =>
      by_cases htess : ((tc != "") && (te != "")) = true
      · obtain ⟨d2, hd2, ha2, hdd2, hcp2, hlp2, hn2⟩ := compileStage_trace env s1 tc glTESS_CONTROL_SHADER
        rcases h2 : compileStage env s1 tc glTESS_CONTROL_SHADER with ⟨res2, s2⟩
        simp only [h2] at hd2 hn2
        cases res2 with
        | error err =>
            left
            have hN : NewProgram env (initState next) v g tc te f = ((0, some err), s2) := by
              simp [NewProgram, h1, htess, h2]
            refine ⟨err, ?_, ?_, ?_, ?_, ?_⟩ <;>
              simp [hN, hd2, hd1, createdPrograms_append, linkedPrograms_append,
                deletedShaders_append, attachedShaders_append, hcp1, hlp1, hdd1, ha1,
                hcp2, hlp2, hdd2, ha2]
        | ok tcshader =>
            obtain ⟨d3, hd3, ha3, hdd3, hcp3, hlp3, hn3⟩ := compileStage_trace env s2 te glTESS_EVALUATION_SHADER
            rcases h3 : compileStage env s2 te glTESS_EVALUATION_SHADER with ⟨res3, s3⟩
            simp only [h3] at hd3 hn3
            cases res3 with
            | error err =>
                left
                have hN : NewProgram env (initState next) v g tc te f = ((0, some err), s3) := by
                  simp [NewProgram, h1, htess, h2, h3]
                refine ⟨err, ?_, ?_, ?_, ?_, ?_⟩ <;>
                  simp [hN, hd3, hd2, hd1, createdPrograms_append, linkedPrograms_append,
                    deletedShaders_append, attachedShaders_append, hcp1, hlp1, hdd1, ha1,
                    hcp2, hlp2, hdd2, ha2, hcp3, hlp3, hdd3, ha3]
            | ok teshader =>
                obtain ⟨d4, hd4, ha4, hdd4, hcp4, hlp4, hn4⟩ := compileStage_trace env s3 f glFRAGMENT_SHADER
                rcases h4 : compileStage env s3 f glFRAGMENT_SHADER with ⟨res4, s4⟩
                simp only [h4] at hd4 hn4
                cases res4 with
                | error err =>
                    left
                    have hN : NewProgram env (initState next) v g tc te f = ((0, some err), s4) := by
                      simp [NewProgram, h1, htess, h2, h3, h4]
                    refine ⟨err, ?_, ?_, ?_, ?_, ?_⟩ <;>
                      simp [hN, hd4, hd3, hd2, hd1, createdPrograms_append, linkedPrograms_append,
                        deletedShaders_append, attachedShaders_append, hcp1, hlp1, hdd1, ha1,
                        hcp2, hlp2, hdd2, ha2, hcp3, hlp3, hdd3, ha3, hcp4, hlp4, hdd4, ha4]
                | ok fshader =>
                    by_cases hgeom : (g != "") = true
                    · obtain ⟨d5, hd5, ha5, hdd5, hcp5, hlp5, hn5⟩ := compileStage_trace env s4 g glGEOMETRY_SHADER
                      rcases h5 : compileStage env s4 g glGEOMETRY_SHADER with ⟨res5, s5⟩
                      simp only [h5] at hd5 hn5
                      cases res5 with
                      | error err =>
                          left
                          have hN : NewProgram env (initState next) v g tc te f = ((0, some err), s5) := by
                            simp [NewProgram, h1, htess, h2, h3, h4, hgeom, h5]
                          refine ⟨err, ?_, ?_, ?_, ?_, ?_⟩ <;>
                            simp [hN, hd5, hd4, hd3, hd2, hd1, createdPrograms_append,
                              linkedPrograms_append, deletedShaders_append, attachedShaders_append,
                              hcp1, hlp1, hdd1, ha1, hcp2, hlp2, hdd2, ha2, hcp3, hlp3, hdd3, ha3,
                              hcp4, hlp4, hdd4, ha4, hcp5, hlp5, hdd5, ha5]
                      | ok gshader =>
                          right
                          have hN : NewProgram env (initState next) v g tc te f =
                              finishProgram env s5 true true vshader tcshader teshader fshader gshader := by
                            simp [NewProgram, h1, htess, h2, h3, h4, hgeom, h5]
                          obtain ⟨hfst, hcp, hlp, hat, hdel⟩ :=
                            finishProgram_shape env s5 true true vshader tcshader teshader fshader gshader
                              (by simp [hd5, hd4, hd3, hd2, hd1, createdPrograms_append, hcp1, hcp2, hcp3, hcp4, hcp5])
                              (by simp [hd5, hd4, hd3, hd2, hd1, linkedPrograms_append, hlp1, hlp2, hlp3, hlp4, hlp5])
                              (by simp [hd5, hd4, hd3, hd2, hd1, deletedShaders_append, hdd1, hdd2, hdd3, hdd4, hdd5])
                              (by intro p; simp [hd5, hd4, hd3, hd2, hd1, attachedShaders_append, ha1, ha2, ha3, ha4, ha5])
                          refine ⟨s5.next, vshader, tcshader, teshader, fshader, gshader, by omega, ?_, ?_, ?_, ?_, ?_⟩ <;>
                            simp only [hN, htess, hgeom] <;> first
                              | exact hfst
                              | exact hcp
                              | exact hlp
                              | exact hat
                              | exact hdel
                    · right
                      have hN : NewProgram env (initState next) v g tc te f =
                          finishProgram env s4 true false vshader tcshader teshader fshader 0 := by
                        simp [NewProgram, h1, htess, h2, h3, h4, hgeom]
                      obtain ⟨hfst, hcp, hlp, hat, hdel⟩ :=
                        finishProgram_shape env s4 true false vshader tcshader teshader fshader 0
                          (by simp [hd4, hd3, hd2, hd1, createdPrograms_append, hcp1, hcp2, hcp3, hcp4])
                          (by simp [hd4, hd3, hd2, hd1, linkedPrograms_append, hlp1, hlp2, hlp3, hlp4])
                          (by simp [hd4, hd3, hd2, hd1, deletedShaders_append, hdd1, hdd2, hdd3, hdd4])
                          (by intro p; simp [hd4, hd3, hd2, hd1, attachedShaders_append, ha1, ha2, ha3, ha4])
                      simp only [Bool.not_eq_true] at hgeom
                      refine ⟨s4.next, vshader, tcshader, teshader, fshader, 0, by omega, ?_, ?_, ?_, ?_, ?_⟩ <;>
                        simp only [hN, htess, hgeom] <;> first
                          | exact hfst
                          | exact hcp
                          | exact hlp
                          | exact hat
                          | exact hdel
      · obtain ⟨d4, hd4, ha4, hdd4, hcp4, hlp4, hn4⟩ := compileStage_trace env s1 f glFRAGMENT_SHADER
        rcases h4 : compileStage env s1 f glFRAGMENT_SHADER with ⟨res4, s4⟩
        simp only [h4] at hd4 hn4
        cases res4 with
        | error err =>
            left
            have hN : NewProgram env (initState next) v g tc te f = ((0, some err), s4) := by
              simp [NewProgram, h1, htess, h4]
            refine ⟨err, ?_, ?_, ?_, ?_, ?_⟩ <;>
              simp [hN, hd4, hd1, createdPrograms_append, linkedPrograms_append,
                deletedShaders_append, attachedShaders_append, hcp1, hlp1, hdd1, ha1,
                hcp4, hlp4, hdd4, ha4]
        | ok fshader =>
            by_cases hgeom : (g != "") = true
            · obtain ⟨d5, hd5, ha5, hdd5, hcp5, hlp5, hn5⟩ := compileStage_trace env s4 g glGEOMETRY_SHADER
              rcases h5 : compileStage env s4 g glGEOMETRY_SHADER with ⟨res5, s5⟩
              simp only [h5] at hd5 hn5
              cases res5 with
              | error err =>
                  left
                  have hN : NewProgram env (initState next) v g tc te f = ((0, some err), s5) := by
                    simp [NewProgram, h1, htess, h4, hgeom, h5]
                  refine ⟨err, ?_, ?_, ?_, ?_, ?_⟩ <;>
                    simp [hN, hd5, hd4, hd1, createdPrograms_append, linkedPrograms_append,
                      deletedShaders_append, attachedShaders_append, hcp1, hlp1, hdd1, ha1,
                      hcp4, hlp4, hdd4, ha4, hcp5, hlp5, hdd5, ha5]
              | ok gshader =>
                  right
                  have hN : NewProgram env (initState next) v g tc te f =
                      finishProgram env s5 false true vshader 0 0 fshader gshader := by
                    simp [NewProgram, h1, htess, h4, hgeom, h5]
                  obtain ⟨hfst, hcp, hlp, hat, hdel⟩ :=
                    finishProgram_shape env s5 false true vshader 0 0 fshader gshader
                      (by simp [hd5, hd4, hd1, createdPrograms_append, hcp1, hcp4, hcp5])
                      (by simp [hd5, hd4, hd1, linkedPrograms_append, hlp1, hlp4, hlp5])
                      (by simp [hd5, hd4, hd1, deletedShaders_append, hdd1, hdd4, hdd5])
                      (by intro p; simp [hd5, hd4, hd1, attachedShaders_append, ha1, ha4, ha5])
                  simp only [Bool.not_eq_true] at htess
                  refine ⟨s5.next, vshader, 0, 0, fshader, gshader, by omega, ?_, ?_, ?_, ?_, ?_⟩ <;>
                    simp only [hN, htess, hgeom] <;> first
                      | exact hfst
                      | exact hcp
                      | exact hlp
                      | exact hat
                      | exact hdel
            · right
              have hN : NewProgram env (initState next) v g tc te f =
                  finishProgram env s4 false false vshader 0 0 fshader 0 := by
                simp [NewProgram, h1, htess, h4, hgeom]
              obtain ⟨hfst, hcp, hlp, hat, hdel⟩ :=
                finishProgram_shape env s4 false false vshader 0 0 fshader 0
                  (by simp [hd4, hd1, createdPrograms_append, hcp1, hcp4])
                  (by simp [hd4, hd1, linkedPrograms_append, hlp1, hlp4])
                  (by simp [hd4, hd1, deletedShaders_append, hdd1, hdd4])
                  (by intro p; simp [hd4, hd1, attachedShaders_append, ha1, ha4])
              simp only [Bool.not_eq_true] at htess hgeom
              refine ⟨s4.next, vshader, 0, 0, fshader, 0, by omega, ?_, ?_, ?_, ?_, ?_⟩ <;>
                simp only [hN, htess, hgeom] <;> first
                  | exact hfst
                  | exact hcp
                  | exact hlp
                  | exact hat
                  | exact hdel

/-- A concrete oracle on which every file exists, every stage compiles,
and linking succeeds. -/
def envAllOk : Env :=
  { files := fun _ => some "source text"
    compileOk := fun _ _ => true
    shaderLog := fun _ _ => ""
    linkOk := true
    programLog := "" }

/-- A concrete oracle on which every file exists and every stage
compiles, but linking fails. -/
def envLinkFail : Env :=
  { files := fun _ => some "source text"
    compileOk := fun _ _ => true
    shaderLog := fun _ _ => ""
    linkOk := false
    programLog := "link log" }

/-! ## C1: stages attached by NewProgram -/

/-- C1 counterexample: with all five stage names non-empty, every compile
succeeds and a program object is created, and FIVE stage objects are
attached to it — more than the claimed upper bound of four. -/
theorem newProgram_five_attachments :
    GLCall.createProgram 6 ∈ ((NewProgram envAllOk (initState 1) "v" "g" "tc" "te" "f").2).trace
    ∧ ¬ ((attachedShaders 6 ((NewProgram envAllOk (initState 1) "v" "g" "tc" "te" "f").2).trace).length ≤ 4) := by
  decide

/-- C1 (amended): whenever `NewProgram` creates a program object, the
stages attached to it are exactly the vertex stage, the two tessellation
stages when both tessellation names are non-empty, the fragment stage,
and the geometry stage when its name is non-empty — between 2 and 5
stage objects in total. -/
theorem newProgram_attached_stage_count (env : Env) (next : Nat) (v g tc te f : String) (p : Nat)
    (hp : GLCall.createProgram p ∈ ((NewProgram env (initState next) v g tc te f).2).trace) :
    ∃ vs tcs tes fs gs,
      attachedShaders p ((NewProgram env (initState next) v g tc te f).2).trace
        = stageList ((tc != "") && (te != "")) (g != "") vs tcs tes fs gs
      ∧ (attachedShaders p ((NewProgram env (initState next) v g tc te f).2).trace).length
          = 2 + (if (tc != "") && (te != "") then 2 else 0) + (if g != "" then 1 else 0)
      ∧ 2 ≤ (attachedShaders p ((NewProgram env (initState next) v g tc te f).2).trace).length
      ∧ (attachedShaders p ((NewProgram env (initState next) v g tc te f).2).trace).length ≤ 5 := by
  rcases newProgram_shape env next v g tc te f with
    ⟨err, hfst, hcp, hlp, hdd, hat⟩ | ⟨P, vs, tcs, tes, fs, gs, hP, hfst, hcp, hlp, hat, hdel⟩
  · exact absurd (mem_createdPrograms_of_mem hp) (by rw [hcp]; simp)
  · have hpP : p = P := by
      have h := mem_createdPrograms_of_mem hp
      rw [hcp] at h
      simpa using h
    subst hpP
    refine ⟨vs, tcs, tes, fs, gs, hat, ?_, ?_, ?_⟩
    · rw [hat, stageList_length]
    · rw [hat, stageList_length]; split_ifs <;> omega
    · rw [hat, stageList_length]; split_ifs <;> omega

/-- Witness for C1's amended theorem: a run with no tessellation and no
geometry stage creates program 3, and the theorem applies to it. -/
theorem newProgram_attached_stage_count_witness :
    ∃ vs tcs tes fs gs,
      attachedShaders 3 ((NewProgram envAllOk (initState 1) "v" "" "" "" "f").2).trace
        = stageList (("" != "") && ("" != "")) ("" != "") vs tcs tes fs gs
      ∧ (attachedShaders 3 ((NewProgram envAllOk (initState 1) "v" "" "" "" "f").2).trace).length
          = 2 + (if ("" != "") && ("" != "") then 2 else 0) + (if "" != "" then 1 else 0)
      ∧ 2 ≤ (attachedShaders 3 ((NewProgram envAllOk (initState 1) "v" "" "" "" "f").2).trace).length
      ∧ (attachedShaders 3 ((NewProgram envAllOk (initState 1) "v" "" "" "" "f").2).trace).length ≤ 5 :=
  newProgram_attached_stage_count envAllOk 1 "v" "" "" "" "f" 3 (by decide)

/-! ## C2: release of stage shaders -/

/-- C2 counterexample: when linking fails, the link step is reached (the
program was linked) and two stage shaders were attached, yet no
`DeleteShader` call is ever issued: the stage objects are not released. -/
theorem newProgram_link_fail_keeps_shaders :
    GLCall.linkProgram 3 ∈ ((NewProgram envLinkFail (initState 1) "v" "" "" "" "f").2).trace
    ∧ attachedShaders 3 ((NewProgram envLinkFail (initState 1) "v" "" "" "" "f").2).trace = [1, 2]
    ∧ deletedShaders ((NewProgram envLinkFail (initState 1) "v" "" "" "" "f").2).trace = [] := by
  decide

/-- C2 (amended): when a `NewProgram` run reaches the link step, the
compiled stage shader objects are deleted exactly when linking succeeds:
on success the deleted shaders are exactly the attached ones, and on
link failure the function returns without deleting any shader. -/
theorem newProgram_deletes_iff_link_ok (env : Env) (next : Nat) (v g tc te f : String) (p : Nat)
    (hp : GLCall.linkProgram p ∈ ((NewProgram env (initState next) v g tc te f).2).trace) :
    deletedShaders ((NewProgram env (initState next) v g tc te f).2).trace
      = (if env.linkOk
         then attachedShaders p ((NewProgram env (initState next) v g tc te f).2).trace
         else []) := by
  rcases newProgram_shape env next v g tc te f with
    ⟨err, hfst, hcp, hlp, hdd, hat⟩ | ⟨P, vs, tcs, tes, fs, gs, hP, hfst, hcp, hlp, hat, hdel⟩
  · exact absurd (mem_linkedPrograms_of_mem hp) (by rw [hlp]; simp)
  · have hpP : p = P := by
      have h := mem_linkedPrograms_of_mem hp
      rw [hlp] at h
      simpa using h
    subst hpP
    rw [hdel, hat]

/-- Witness for C2's amended theorem: a successful run links program 3
and the deleted shaders equal the attached ones. -/
theorem newProgram_deletes_iff_link_ok_witness :
    deletedShaders ((NewProgram envAllOk (initState 1) "v" "" "" "" "f").2).trace
      = (if envAllOk.linkOk
         then attachedShaders 3 ((NewProgram envAllOk (initState 1) "v" "" "" "" "f").2).trace
         else []) :=
  newProgram_deletes_iff_link_ok envAllOk 1 "v" "" "" "" "f" 3 (by decide)

/-! ## C3: zero handle iff error -/

/-- Full shape of a `NewComputeProgram` run started on a fresh trace:
either it fails before any program object exists, or it creates and links
exactly one program object (a fresh handle). -/
theorem newComputeProgram_shape (env : Env) (next : Nat) (name : String) :
    (∃ err, (NewComputeProgram env (initState next) name).1 = (0, some err)
      ∧ createdPrograms ((NewComputeProgram env (initState next) name).2).trace = []
      ∧ linkedPrograms ((NewComputeProgram env (initState next) name).2).trace = [])
    ∨ (∃ P, next ≤ P
      ∧ (NewComputeProgram env (initState next) name).1 =
          (if env.linkOk then ((P : Nat), (none : Option String))
           else (0, some ("failed to link program: " ++ env.programLog)))
      ∧ createdPrograms ((NewComputeProgram env (initState next) name).2).trace = [P]
      ∧ linkedPrograms ((NewComputeProgram env (initState next) name).2).trace = [P]) := by
  obtain ⟨d1, hd1, ha1, hdd1, hcp1, hlp1, hn1⟩ := compileStage_trace env (initState next) name glCOMPUTE_SHADER
  rcases h1 : compileStage env (initState next) name glCOMPUTE_SHADER with ⟨res1, s1⟩
  simp only [h1] at hd1 hn1
  simp only [initState] at hd1 hn1
  cases res1 with
  | error err =>
      left
      have hN : NewComputeProgram env (initState next) name = ((0, some err), s1) := by
        simp [NewComputeProgram, h1]
      refine ⟨err, ?_, ?_, ?_⟩ <;>
        simp [hN, hd1, createdPrograms_append, linkedPrograms_append, hcp1, hlp1]
  | ok cshader =>
      right
      refine ⟨s1.next, by omega, ?_, ?_, ?_⟩ <;>
        cases hl : env.linkOk <;>
          simp [NewComputeProgram, h1, linkAndCheck, GLState.alloc, GLState.emit, hl,
            glTRUE, glFALSE, hd1, createdPrograms_append, linkedPrograms_append, hcp1, hlp1,
            createdPrograms, linkedPrograms]

/-- C3: `NewProgram` and `NewComputeProgram` return handle `0` exactly
when they return a non-nil error, and when the error is nil the returned
handle is the one program object the run created and linked. -/
theorem program_factories_zero_iff_error (env : Env) (next : Nat)
    (v g tc te f cname : String) (hn : 0 < next) :
    ((NewProgram env (initState next) v g tc te f).1.1 = 0
        ↔ (NewProgram env (initState next) v g tc te f).1.2 ≠ none)
    ∧ ((NewProgram env (initState next) v g tc te f).1.2 = none →
        createdPrograms ((NewProgram env (initState next) v g tc te f).2).trace
            = [(NewProgram env (initState next) v g tc te f).1.1]
        ∧ linkedPrograms ((NewProgram env (initState next) v g tc te f).2).trace
            = [(NewProgram env (initState next) v g tc te f).1.1])
    ∧ ((NewComputeProgram env (initState next) cname).1.1 = 0
        ↔ (NewComputeProgram env (initState next) cname).1.2 ≠ none)
    ∧ ((NewComputeProgram env (initState next) cname).1.2 = none →
        createdPrograms ((NewComputeProgram env (initState next) cname).2).trace
            = [(NewComputeProgram env (initState next) cname).1.1]
        ∧ linkedPrograms ((NewComputeProgram env (initState next) cname).2).trace
            = [(NewComputeProgram env (initState next) cname).1.1]) := by
  have hNP := newProgram_shape env next v g tc te f
  have hNC := newComputeProgram_shape env next cname
  refine ⟨?_, ?_, ?_, ?_⟩
  · rcases hNP with ⟨err, hfst, _⟩ | ⟨P, _, _, _, _, _, hP, hfst, _⟩
    · simp [hfst]
    · cases hl : env.linkOk
      · rw [hl] at hfst; simp only [Bool.false_eq_true, if_false] at hfst; simp [hfst]
      · rw [hl] at hfst; simp only [if_true] at hfst; simp [hfst]; omega
  · intro hnone
    rcases hNP with ⟨err, hfst, _⟩ | ⟨P, _, _, _, _, _, hP, hfst, hcp, hlp, _, _⟩
    · rw [hfst] at hnone; simp at hnone
    · cases hl : env.linkOk
      · rw [hl] at hfst; simp only [Bool.false_eq_true, if_false] at hfst
        rw [hfst] at hnone; simp at hnone
      · rw [hl] at hfst; simp only [if_true] at hfst
        have hh : (NewProgram env (initState next) v g tc te f).1.1 = P := by rw [hfst]
        rw [hh]
        exact ⟨hcp, hlp⟩
  · rcases hNC with ⟨err, hfst, _⟩ | ⟨P, hP, hfst, _⟩
    · simp [hfst]
    · cases hl : env.linkOk
      · rw [hl] at hfst; simp only [Bool.false_eq_true, if_false] at hfst; simp [hfst]
      · rw [hl] at hfst; simp only [if_true] at hfst; simp [hfst]; omega
  · intro hnone
    rcases hNC with ⟨err, hfst, _⟩ | ⟨P, hP, hfst, hcp, hlp⟩
    · rw [hfst] at hnone; simp at hnone
    · cases hl : env.linkOk
      · rw [hl] at hfst; simp only [Bool.false_eq_true, if_false] at hfst
        rw [hfst] at hnone; simp at hnone
      · rw [hl] at hfst; simp only [if_true] at hfst
        have hh : (NewComputeProgram env (initState next) cname).1.1 = P := by rw [hfst]
        rw [hh]
        exact ⟨hcp, hlp⟩

/-- Witness for C3: on the all-success oracle with counter 1, the
zero-iff-error equivalence holds for a concrete `NewProgram` call. -/
theorem program_factories_zero_iff_error_witness :
    ((NewProgram envAllOk (initState 1) "v" "" "" "" "f").1.1 = 0
        ↔ (NewProgram envAllOk (initState 1) "v" "" "" "" "f").1.2 ≠ none) :=
  (program_factories_zero_iff_error envAllOk 1 "v" "" "" "" "f" "c" (by decide)).1

/-! ## C5: which texture receives the fixed parameters -/

/-- Texture-unit state derived by replaying a trace: which texture object
is bound to the `TEXTURE_2D` and `TEXTURE_2D_MULTISAMPLE` targets, and
the parameter writes that reached each texture object, in call order.
Per the GL specification, `TexParameteri` affects the texture currently
bound to the target it names. -/
structure TexState where
  bound2D : Nat
  bound2DMS : Nat
  params : List (Nat × Nat × Nat)
  deriving DecidableEq, Repr

def texStep (e : TexState) : GLCall → TexState
  | .bindTexture target tex =>
      if target = glTEXTURE_2D then { e with bound2D := tex }
      else if target = glTEXTURE_2D_MULTISAMPLE then { e with bound2DMS := tex }
      else e
  | .texParameteri target pname value =>
      let bound := if target = glTEXTURE_2D then e.bound2D
        else if target = glTEXTURE_2D_MULTISAMPLE then e.bound2DMS else 0
      { e with params := e.params ++ [(bound, pname, value)] }
  | _ => e

def runTex (e : TexState) (t : List GLCall) : TexState := t.foldl texStep e

/-- The (pname, value) parameter writes that reached texture `tex`. -/
def paramsFor (tex : Nat) : List (Nat × Nat × Nat) → List (Nat × Nat)
  | [] => []
  | (t, pn, v) :: ps => if t = tex then (pn, v) :: paramsFor tex ps else paramsFor tex ps

theorem paramsFor_append (tex : Nat) (ps1 ps2 : List (Nat × Nat × Nat)) :
    paramsFor tex (ps1 ++ ps2) = paramsFor tex ps1 ++ paramsFor tex ps2 := by
  induction ps1 with
  | nil => rfl
  | cons q ps ih =>
      rcases q with ⟨t, pn, v⟩
      by_cases h : t = tex <;> simp [paramsFor, h, ih]

/-- C5 counterexample: with multisampling true (and no texture previously
bound to `TEXTURE_2D`), the newly created texture (handle 1, bound to
`TEXTURE_2D_MULTISAMPLE`) receives NO parameter writes — the four
`TexParameteri` calls name target `TEXTURE_2D` and therefore reach
texture 0 instead. -/
theorem createTexture_multisample_misses_new_texture :
    (CreateTexture (initState 1) 4 4 glRGBA8 glRGBA glUNSIGNED_BYTE true 4 1).1 = 1
    ∧ paramsFor 1 (runTex ⟨0, 0, []⟩
        ((CreateTexture (initState 1) 4 4 glRGBA8 glRGBA glUNSIGNED_BYTE true 4 1).2).trace).params = []
    ∧ paramsFor 0 (runTex ⟨0, 0, []⟩
        ((CreateTexture (initState 1) 4 4 glRGBA8 glRGBA glUNSIGNED_BYTE true 4 1).2).trace).params
      = [(glTEXTURE_WRAP_S, glCLAMP_TO_EDGE), (glTEXTURE_WRAP_T, glCLAMP_TO_EDGE),
         (glTEXTURE_MIN_FILTER, glNEAREST), (glTEXTURE_MAG_FILTER, glNEAREST)] := by
  decide

/-- C5 (amended): when multisampling is false, the four fixed parameter
writes reach the newly created texture (which is then bound to
`TEXTURE_2D`); when multisampling is true, the new texture is bound to
`TEXTURE_2D_MULTISAMPLE` but the parameter calls name target
`TEXTURE_2D`, so they reach whatever texture was previously bound there
and the new texture receives none of them. -/
theorem createTexture_fixed_params (s : GLState) (ht : s.trace = []) (e : TexState)
    (w h : Int) (ifmt fmt ityp : Nat) (smp mip : Int) (hne : e.bound2D ≠ s.next) :
    ((CreateTexture s w h ifmt fmt ityp false smp mip).1 = s.next
      ∧ paramsFor s.next (runTex e ((CreateTexture s w h ifmt fmt ityp false smp mip).2).trace).params
          = paramsFor s.next e.params ++
            [(glTEXTURE_WRAP_S, glCLAMP_TO_EDGE), (glTEXTURE_WRAP_T, glCLAMP_TO_EDGE),
             (glTEXTURE_MIN_FILTER, glNEAREST), (glTEXTURE_MAG_FILTER, glNEAREST)])
    ∧ ((CreateTexture s w h ifmt fmt ityp true smp mip).1 = s.next
      ∧ paramsFor s.next (runTex e ((CreateTexture s w h ifmt fmt ityp true smp mip).2).trace).params
          = paramsFor s.next e.params
      ∧ paramsFor e.bound2D (runTex e ((CreateTexture s w h ifmt fmt ityp true smp mip).2).trace).params
          = paramsFor e.bound2D e.params ++
            [(glTEXTURE_WRAP_S, glCLAMP_TO_EDGE), (glTEXTURE_WRAP_T, glCLAMP_TO_EDGE),
             (glTEXTURE_MIN_FILTER, glNEAREST), (glTEXTURE_MAG_FILTER, glNEAREST)]) := by
  refine ⟨⟨?_, ?_⟩, ?_, ?_, ?_⟩ <;>
    simp [CreateTexture, GLState.emit, GLState.alloc, ht, runTex, texStep, paramsFor_append,
      paramsFor, hne, glTEXTURE_2D, glTEXTURE_2D_MULTISAMPLE, glTEXTURE_WRAP_S, glTEXTURE_WRAP_T,
      glTEXTURE_MIN_FILTER, glTEXTURE_MAG_FILTER, glCLAMP_TO_EDGE, glNEAREST]

/-- Witness for C5's amended theorem: concrete run with multisampling
true where the fresh texture 1 receives no parameter writes. -/
theorem createTexture_fixed_params_witness :
    paramsFor 1 (runTex ⟨0, 0, []⟩
        ((CreateTexture (initState 1) 4 4 glRGBA8 glRGBA glUNSIGNED_BYTE true 4 1).2).trace).params
      = paramsFor 1 (TexState.mk 0 0 []).params :=
  (createTexture_fixed_params (initState 1) rfl ⟨0, 0, []⟩ 4 4 glRGBA8 glRGBA glUNSIGNED_BYTE 4 1
    (by decide)).2.2.1

/-! ## C6: texture formats used by the framebuffer presets -/

/-- The invocations of the repository's `CreateTexture` factory recorded
in a trace, with their full argument tuples
(width, height, internalFormat, format, type, multisampling, samples,
mipmapLevels), in call order. -/
def createTextureCalls : List GLCall → List (Int × Int × Nat × Nat × Nat × Bool × Int × Int)
  | [] => []
  | .callCreateTexture w h ifmt fmt ityp ms smp mip :: t =>
      (w, h, ifmt, fmt, ityp, ms, smp, mip) :: createTextureCalls t
  | _ :: t => createTextureCalls t

theorem createTextureCalls_append (t1 t2 : List GLCall) :
    createTextureCalls (t1 ++ t2) = createTextureCalls t1 ++ createTextureCalls t2 := by
  induction t1 with
  | nil => rfl
  | cons c t ih => cases c <;> simp [createTextureCalls, ih]

/-- C6: `CreateFbo` creates its color texture with RGBA8/UNSIGNED_BYTE
(or RGBA32F/FLOAT when floating point) and its depth texture with
DEPTH_COMPONENT32/FLOAT; `CreateLightFbo` creates its color texture with
RG32F/FLOAT and the same depth texture; each texture is created only when
the corresponding pointer argument is non-nil. -/
theorem fbo_presets_texture_formats (s : GLState) (colorTex depthTex : Option Nat)
    (w h : Int) (ms : Bool) (smp : Int) (isFP : Bool) (mip : Int) :
    createTextureCalls (((CreateFbo s colorTex depthTex w h ms smp isFP mip).2).trace)
      = createTextureCalls s.trace
        ++ (if colorTex.isSome then
              [(w, h, (if isFP then glRGBA32F else glRGBA8), glRGBA,
                (if isFP then glFLOAT else glUNSIGNED_BYTE), ms, smp, mip)] else [])
        ++ (if depthTex.isSome then
              [(w, h, glDEPTH_COMPONENT32, glDEPTH_COMPONENT, glFLOAT, ms, smp, 1)] else [])
    ∧ createTextureCalls (((CreateLightFbo s colorTex depthTex w h ms smp).2).trace)
      = createTextureCalls s.trace
        ++ (if colorTex.isSome then [(w, h, glRG32F, glRG, glFLOAT, ms, smp, 1)] else [])
        ++ (if depthTex.isSome then
              [(w, h, glDEPTH_COMPONENT32, glDEPTH_COMPONENT, glFLOAT, ms, smp, 1)] else []) := by
  constructor <;>
    cases colorTex <;> cases depthTex <;> cases isFP <;> cases ms <;>
      simp [CreateFbo, CreateLightFbo, CreateTexture, CreateFboWithExistingTextures,
        GLState.emit, GLState.alloc, createTextureCalls_append, createTextureCalls]

/-- Witness for C6: concrete instantiation with both pointers non-nil
and the floating-point standard preset. -/
theorem fbo_presets_texture_formats_witness :
    createTextureCalls (((CreateFbo (initState 1) (some 0) (some 0) 8 6 false 0 true 1).2).trace)
      = createTextureCalls (initState 1).trace
        ++ (if (some 0 : Option Nat).isSome then
              [((8 : Int), (6 : Int), (if true then glRGBA32F else glRGBA8), glRGBA,
                (if true then glFLOAT else glUNSIGNED_BYTE), false, (0 : Int), (1 : Int))] else [])
        ++ (if (some 0 : Option Nat).isSome then
              [((8 : Int), (6 : Int), glDEPTH_COMPONENT32, glDEPTH_COMPONENT, glFLOAT, false, (0 : Int), (1 : Int))] else []) :=
  (fbo_presets_texture_formats (initState 1) (some 0) (some 0) 8 6 false 0 true 1).1

/-! ## C7 and C8: vertex/index buffer packing -/

/-- Vertex-attribute indices enabled in a trace, in order. -/
def enabledAttribs : List GLCall → List Nat
  | [] => []
  | .enableVertexAttribArray i :: t => i :: enabledAttribs t
  | _ :: t => enabledAttribs t

/-- Vertex-attribute pointer configurations in a trace
(index, size, type, normalized, stride), in order. -/
def attribPointers : List GLCall → List (Nat × Int × Nat × Bool × Int)
  | [] => []
  | .vertexAttribPointer i sz ty n st :: t => (i, sz, ty, n, st) :: attribPointers t
  | _ :: t => attribPointers t

/-- Sizes of the `BufferData` uploads made to the element array buffer
target in a trace, in order. -/
def elementDataSizes : List GLCall → List Int
  | [] => []
  | .bufferData target sz _ :: t =>
      if target = glELEMENT_ARRAY_BUFFER then sz :: elementDataSizes t else elementDataSizes t
  | _ :: t => elementDataSizes t

theorem enabledAttribs_append (t1 t2 : List GLCall) :
    enabledAttribs (t1 ++ t2) = enabledAttribs t1 ++ enabledAttribs t2 := by
  induction t1 with
  | nil => rfl
  | cons c t ih => cases c <;> simp [enabledAttribs, ih]

theorem attribPointers_append (t1 t2 : List GLCall) :
    attribPointers (t1 ++ t2) = attribPointers t1 ++ attribPointers t2 := by
  induction t1 with
  | nil => rfl
  | cons c t ih => cases c <;> simp [attribPointers, ih]

theorem elementDataSizes_append (t1 t2 : List GLCall) :
    elementDataSizes (t1 ++ t2) = elementDataSizes t1 ++ elementDataSizes t2 := by
  induction t1 with
  | nil => rfl
  | cons c t ih =>
      cases c <;> simp [elementDataSizes, ih]
      split <;> simp [ih]

/-- C7: both packers enable exactly one vertex attribute, at index 0,
configured as 2 float components with stride `vec2Size` (the byte size of
a 2-component float vector), and record `VertexCount` equal to the number
of input points; `GenerateBufferFromLines2D` additionally uploads exactly
one element-array buffer of `uint32Size * (number of indices)` bytes and
records `IndexCount` equal to the number of input indices. -/
theorem generateBuffers_attrib_and_counts (s : GLState) (b : MeshBuffer)
    (points : List Vec2) (indices : List Nat)
    (h3 : 3 ≤ points.length) (h2i : 2 ≤ indices.length) :
    (enabledAttribs ((GenerateBufferFromTriangles2D s b points).2).trace
        = enabledAttribs s.trace ++ [0]
      ∧ attribPointers ((GenerateBufferFromTriangles2D s b points).2).trace
        = attribPointers s.trace ++ [(0, 2, glFLOAT, false, vec2Size)]
      ∧ ((GenerateBufferFromTriangles2D s b points).1).VertexCount = points.length)
    ∧ (enabledAttribs ((GenerateBufferFromLines2D s b points indices).2).trace
        = enabledAttribs s.trace ++ [0]
      ∧ attribPointers ((GenerateBufferFromLines2D s b points indices).2).trace
        = attribPointers s.trace ++ [(0, 2, glFLOAT, false, vec2Size)]
      ∧ ((GenerateBufferFromLines2D s b points indices).1).VertexCount = points.length
      ∧ elementDataSizes ((GenerateBufferFromLines2D s b points indices).2).trace
        = elementDataSizes s.trace ++ [uint32Size * indices.length]
      ∧ ((GenerateBufferFromLines2D s b points indices).1).IndexCount = indices.length) := by
  have hn3 : ¬ points.length < 3 := by omega
  have hn2p : ¬ points.length < 2 := by omega
  have hn2i : ¬ indices.length < 2 := by omega
  refine ⟨⟨?_, ?_, ?_⟩, ?_, ?_, ?_, ?_, ?_⟩ <;>
    simp [GenerateBufferFromTriangles2D, GenerateBufferFromLines2D, GLState.emit, GLState.alloc,
      hn3, hn2p, hn2i, enabledAttribs_append, attribPointers_append, elementDataSizes_append,
      enabledAttribs, attribPointers, elementDataSizes, glARRAY_BUFFER, glELEMENT_ARRAY_BUFFER]

/-- Witness for C7: a concrete call with a triangle and a two-point
line. -/
theorem generateBuffers_attrib_and_counts_witness :
    ((GenerateBufferFromTriangles2D (initState 1) (MeshBuffer.mk 0 0 0 0 0)
        [Vec2.mk 0 0, Vec2.mk 1 0, Vec2.mk 0 1]).1).VertexCount = 3
    ∧ ((GenerateBufferFromLines2D (initState 1) (MeshBuffer.mk 0 0 0 0 0)
        [Vec2.mk 0 0, Vec2.mk 1 0, Vec2.mk 0 1] [0, 1]).1).IndexCount = 2 :=
  ⟨by
    have h := (generateBuffers_attrib_and_counts (initState 1) (MeshBuffer.mk 0 0 0 0 0)
      [Vec2.mk 0 0, Vec2.mk 1 0, Vec2.mk 0 1] [0, 1] (by decide) (by decide)).1.2.2
    simpa using h,
   by
    have h := (generateBuffers_attrib_and_counts (initState 1) (MeshBuffer.mk 0 0 0 0 0)
      [Vec2.mk 0 0, Vec2.mk 1 0, Vec2.mk 0 1] [0, 1] (by decide) (by decide)).2.2.2.2.2
    simpa using h⟩

/-- C8: below the minimum sizes (fewer than 3 points for triangles;
fewer than 2 points or fewer than 2 indices for lines) the packers
return immediately: no driver call is issued, no handle is allocated,
and the `MeshBuffer` is returned unchanged. -/
theorem generateBuffers_min_sizes (s : GLState) (b : MeshBuffer)
    (points : List Vec2) (indices : List Nat) :
    (points.length < 3 → GenerateBufferFromTriangles2D s b points = (b, s))
    ∧ (points.length < 2 ∨ indices.length < 2 →
        GenerateBufferFromLines2D s b points indices = (b, s)) := by
  constructor
  · intro h
    simp [GenerateBufferFromTriangles2D, h]
  · intro h
    have hb : (decide (points.length < 2) || decide (indices.length < 2)) = true := by
      rcases h with h | h <;> simp [h]
    simp [GenerateBufferFromLines2D, hb]

/-- Witness for C8: two points are not enough for a triangle, and one
index is not enough for a line list. -/
theorem generateBuffers_min_sizes_witness :
    GenerateBufferFromTriangles2D (initState 1) (MeshBuffer.mk 1 2 3 4 5)
        [Vec2.mk 0 0, Vec2.mk 1 0] = (MeshBuffer.mk 1 2 3 4 5, initState 1)
    ∧ GenerateBufferFromLines2D (initState 1) (MeshBuffer.mk 1 2 3 4 5)
        [Vec2.mk 0 0, Vec2.mk 1 0] [0] = (MeshBuffer.mk 1 2 3 4 5, initState 1) :=
  ⟨(generateBuffers_min_sizes (initState 1) (MeshBuffer.mk 1 2 3 4 5)
      [Vec2.mk 0 0, Vec2.mk 1 0] [0]).1 (by decide),
   (generateBuffers_min_sizes (initState 1) (MeshBuffer.mk 1 2 3 4 5)
      [Vec2.mk 0 0, Vec2.mk 1 0] [0]).2 (Or.inr (by decide))⟩

/-! ## C9: CreateImageTexture never reports failure -/

/-- C9: `CreateImageTexture` has no error in its return type and ignores
the load error entirely: whatever error `LoadImage` reports, the function
allocates a texture (the fresh handle), sizes it from the loaded record,
and its whole result (including the full driver trace) depends only on
the image record, not on the error. -/
theorem createImageTexture_ignores_load_error (env : ImgEnv) (s : GLState)
    (name : String) (isRepeating : Bool) :
    ((CreateImageTexture env s name isRepeating).1).TextureHandle = s.next
    ∧ ((CreateImageTexture env s name isRepeating).1).TextureSizeX = (env.loadImage name).1.Img.maxX
    ∧ ((CreateImageTexture env s name isRepeating).1).TextureSizeY = (env.loadImage name).1.Img.maxY
    ∧ GLCall.texImage2D glTEXTURE_2D 0 glRGBA8 (env.loadImage name).1.Img.maxX
        (env.loadImage name).1.Img.maxY glRGBA glUNSIGNED_BYTE
        ∈ ((CreateImageTexture env s name isRepeating).2).trace
    ∧ (∀ env2 : ImgEnv, (env2.loadImage name).1 = (env.loadImage name).1 →
        CreateImageTexture env2 s name isRepeating = CreateImageTexture env s name isRepeating) := by
  rcases hL : env.loadImage name with ⟨img, errOpt⟩
  refine ⟨?_, ?_, ?_, ?_, ?_⟩
  · simp [CreateImageTexture, hL, GLState.alloc, GLState.emit]
  · simp [CreateImageTexture, hL, GLState.alloc, GLState.emit]
  · simp [CreateImageTexture, hL, GLState.alloc, GLState.emit]
  · simp [CreateImageTexture, hL, GLState.alloc, GLState.emit]
  · intro env2 h2
    rcases hL2 : env2.loadImage name with ⟨img2, errOpt2⟩
    rw [hL2] at h2
    simp only at h2
    subst h2
    simp [CreateImageTexture, hL, hL2]

/-- A concrete oracle whose image load always fails, returning a
zero-value record alongside the error. -/
def imgEnvFail : ImgEnv :=
  { loadImage := fun _ => (ImageRecord.mk (GoImage.mk 0 0), some "image: unknown format") }

/-- Witness for C9: even on an oracle whose load fails, the function
still creates and returns a texture with the fresh handle. -/
theorem createImageTexture_ignores_load_error_witness :
    ((CreateImageTexture imgEnvFail (initState 1) "missing.png" false).1).TextureHandle = 1 :=
  (createImageTexture_ignores_load_error imgEnvFail (initState 1) "missing.png" false).1

/-! ## C10: FreeGLBuffer field behavior and idempotence -/

/-- C10: `FreeGLBuffer` never modifies `IndexCount`; when
`VertexCount > 0` it zeroes `ArrayBuffer`, `VertexBuffer` and
`VertexCount`; when `IndexCount > 0` it zeroes `IndexBuffer` and
`VertexCount`; and applying it twice leaves the struct fields exactly as
one application does. -/
theorem freeGLBuffer_fields (s s2 : GLState) (b : MeshBuffer) :
    ((FreeGLBuffer s b).1).IndexCount = b.IndexCount
    ∧ (b.VertexCount > 0 →
        ((FreeGLBuffer s b).1).ArrayBuffer = 0
        ∧ ((FreeGLBuffer s b).1).VertexBuffer = 0
        ∧ ((FreeGLBuffer s b).1).VertexCount = 0)
    ∧ (b.IndexCount > 0 →
        ((FreeGLBuffer s b).1).IndexBuffer = 0
        ∧ ((FreeGLBuffer s b).1).VertexCount = 0)
    ∧ (FreeGLBuffer s2 (FreeGLBuffer s b).1).1 = (FreeGLBuffer s b).1 := by
  by_cases hv : b.VertexCount > 0 <;> by_cases hi : b.IndexCount > 0 <;>
    simp [FreeGLBuffer, hv, hi, GLState.emit]

/-- Witness for C10: a buffer with both counts positive ends fully
zeroed except `IndexCount`, and a second application changes nothing. -/
theorem freeGLBuffer_fields_witness :
    ((FreeGLBuffer (initState 1) (MeshBuffer.mk 7 8 3 9 2)).1).IndexCount = 2
    ∧ ((FreeGLBuffer (initState 1) (MeshBuffer.mk 7 8 3 9 2)).1).ArrayBuffer = 0
    ∧ (FreeGLBuffer (initState 1)
        (FreeGLBuffer (initState 1) (MeshBuffer.mk 7 8 3 9 2)).1).1
      = (FreeGLBuffer (initState 1) (MeshBuffer.mk 7 8 3 9 2)).1 := by
  have h := freeGLBuffer_fields (initState 1) (initState 1) (MeshBuffer.mk 7 8 3 9 2)
  exact ⟨h.1, (h.2.1 (by decide)).1, h.2.2.2⟩
